import Mathlib

/-!
Shallow embedding of the `zombiezen/rust-sqlite` core
(`src/result.rs` and `src/connection.rs`).

Machine integers: the Rust code works on `c_int` (two's-complement `i32`).
We model `c_int` values as unbounded `Int` (all values in play are small),
and the masking operation `x & 0xff` as `x.emod 256`: for any two's-complement
integer, bitwise AND with `0xff` keeps the low 8 bits, i.e. yields the
mathematical residue of `x` modulo 256, a value in `[0, 256)`, which is
exactly `Int.emod x 256`.

Native engine (SQLite C library) calls are foreign functions; they are
modelled as explicit parameters (an `Engine` record of functions, or a raw
probe result passed in), and a native handle `*mut sqlite3` is modelled by
the state observable through it (`DbState`: last extended error code,
message buffer, error offset).

Panics (`assert!`, `unwrap`, unreachable `match` arms) are modelled as
`none` in an `Option`-wrapped result.
-/

/-- Numeric result code of a SQLite function: `#[repr(transparent)] pub struct ResultCode(c_int)`
(`src/result.rs`). -/
structure ResultCode where
  val : Int
deriving DecidableEq, Repr

namespace ResultCode

/-- `SQLITE_OK`: operation successful. -/
def OK : ResultCode := ⟨0⟩
/-- `SQLITE_ROW`: another row of output is available. -/
def ROW : ResultCode := ⟨100⟩
/-- `SQLITE_DONE`: an operation has completed. -/
def DONE : ResultCode := ⟨101⟩
/-- `SQLITE_ERROR`: generic error code. -/
def ERROR : ResultCode := ⟨1⟩
/-- `SQLITE_BUSY`. -/
def BUSY : ResultCode := ⟨5⟩
/-- `SQLITE_NOMEM`: SQLite was unable to allocate memory. -/
def NOMEM : ResultCode := ⟨7⟩
/-- `SQLITE_MISUSE`. -/
def MISUSE : ResultCode := ⟨21⟩

/-- `pub const fn to_primary(self) -> ResultCode { ResultCode(self.0 & 0xff) }`
(`src/result.rs` lines 116-118).  Two's-complement `& 0xff` is residue mod 256. -/
def to_primary (rc : ResultCode) : ResultCode :=
  ⟨rc.val.emod 256⟩

/-- `pub const fn is_success(self) -> bool` (`src/result.rs` lines 125-130):
`match self.to_primary() { OK | ROW | DONE => true, _ => false }`. -/
def is_success (rc : ResultCode) : Bool :=
  rc.to_primary = ResultCode.OK || rc.to_primary = ResultCode.ROW
    || rc.to_primary = ResultCode.DONE

end ResultCode

/-- `pub struct Error { result_code: ResultCode, msg: String, error_offset: Option<usize> }`
(`src/result.rs` lines 330-335). -/
structure Error where
  result_code : ResultCode
  msg : String
  error_offset : Option Nat
deriving DecidableEq, Repr

namespace ResultCode

/-- `pub fn to_result(self) -> Result<ResultCode>` (`src/result.rs` lines 141-151):
success codes pass through as `Ok`, others become an `Error` with empty
message and no offset. -/
def to_result (rc : ResultCode) : Except Error ResultCode :=
  if rc.is_success then
    Except.ok rc
  else
    Except.error { result_code := rc, msg := "", error_offset := none }

/-- `pub fn message(self) -> &'static str` (`src/result.rs` lines 133-136):
wraps the engine call `sqlite3_errstr(self.0)`.  The engine is modelled by
the function `errstr`; the `unwrap_or("unknown error")` branch guards only
against invalid UTF-8, which a Lean `String` cannot represent. -/
def message (errstr : Int → String) (rc : ResultCode) : String :=
  errstr rc.val

/-- `impl fmt::Display for ResultCode` (`src/result.rs` lines 320-324):
`f.write_str(self.message())`. -/
def display (errstr : Int → String) (rc : ResultCode) : String :=
  rc.message errstr

end ResultCode

namespace Error

/-- `pub fn new(result_code: ResultCode, msg) -> Error` (`src/result.rs` lines 345-352):
`assert!(!result_code.is_success())`, then builds the Error with no offset.
The assertion failure (panic) is modelled as `none`. -/
def new (result_code : ResultCode) (msg : String) : Option Error :=
  if result_code.is_success then
    none
  else
    some { result_code := result_code, msg := msg, error_offset := none }

/-- `pub fn message(&self) -> &str` (`src/result.rs` lines 411-417):
the custom message if non-empty, else the result code's canned text
(`msg.is_empty()` is the empty-string test). -/
def message (errstr : Int → String) (e : Error) : String :=
  if e.msg = "" then e.result_code.message errstr else e.msg

/-- `impl fmt::Display for Error` (`src/result.rs` lines 428-435):
empty custom message renders the result code's Display, else the message. -/
def display (errstr : Int → String) (e : Error) : String :=
  if e.msg = "" then e.result_code.display errstr else e.msg

end Error

/-- The state observable through a non-null native handle `NonNull<sqlite3>`:
the last recorded extended error code (`sqlite3_extended_errcode`), the
current message buffer (`sqlite3_errmsg`, already copied out as a string),
and the raw `sqlite3_error_offset` result (negative means no offset). -/
structure DbState where
  extended_errcode : ResultCode
  errmsg : String
  error_offset_raw : Int
deriving DecidableEq, Repr

namespace Error

/-- `fn get_error_offset(db) -> Option<usize>` (`src/result.rs` lines 370-386),
on the `modern` build: negative `sqlite3_error_offset` is `None`, otherwise
`Some(offset as usize)`. -/
def get_error_offset (db : DbState) : Option Nat :=
  if db.error_offset_raw < 0 then none else some db.error_offset_raw.toNat

/-- `pub(crate) fn get(db: NonNull<sqlite3>) -> Option<Self>` (`src/result.rs`
lines 355-368): reads the extended error code; success means no error to
extract; otherwise copies offset and message into a fresh `Error`. -/
def get (db : DbState) : Option Error :=
  let result_code := db.extended_errcode
  if result_code.is_success then
    none
  else
    some { result_code := result_code
           msg := db.errmsg
           error_offset := Error.get_error_offset db }

end Error

/-- `pub struct OpenFlags: c_int` (`src/connection.rs` lines 196-218), a
bitflags set over the five flags `READONLY = 0x1`, `READWRITE = 0x2`,
`CREATE = 0x4`, `URI = 0x40`, `MEMORY = 0x80`.  Modelled as one boolean per
flag; `bits` recomputes the stored integer (the flags are distinct powers of
two, so bitwise OR of the selected flags is their sum). -/
structure OpenFlags where
  readonly : Bool
  readwrite : Bool
  create : Bool
  uri : Bool
  memory : Bool
deriving DecidableEq, Repr

/-- `SQLITE_OPEN_NOMUTEX = 0x8000`. -/
def SQLITE_OPEN_NOMUTEX : Nat := 0x8000

/-- `SQLITE_OPEN_PRIVATECACHE = 0x40000`. -/
def SQLITE_OPEN_PRIVATECACHE : Nat := 0x40000

namespace OpenFlags

/-- The raw bit pattern stored by the bitflags set (`flags.bits()`); all
open-flag values are non-negative, so `Nat` suffices for the `c_int`. -/
def bits (f : OpenFlags) : Nat :=
  (if f.readonly then 0x1 else 0) + (if f.readwrite then 0x2 else 0)
    + (if f.create then 0x4 else 0) + (if f.uri then 0x40 else 0)
    + (if f.memory then 0x80 else 0)

/-- `impl Default for OpenFlags` (`src/connection.rs` lines 220-224):
`READWRITE | CREATE | URI`. -/
def default : OpenFlags :=
  { readonly := false, readwrite := true, create := true, uri := true, memory := false }

end OpenFlags

/-- `pub enum ConfigFlag` (`src/connection.rs` lines 241-274), the database
configuration options present on the `modern` build. -/
inductive ConfigFlag where
  | EnableFKey
  | EnableTrigger
  | EnableView
  | FTS3Tokenizer
  | EnableLoadExtension
  | NoCheckpointOnClose
  | EnableQueryPlannerStabilityGuarantee
  | TriggerExplainQueryPlan
  | ResetDatabase
  | Defensive
  | WritableSchema
  | LegacyAlterTable
  | DoubleQuotedStringDDL
  | DoubleQuotedStringDML
  | LegacyFileFormat
  | TrustedSchema
deriving DecidableEq, Repr

namespace ConfigFlag

/-- The `SQLITE_DBCONFIG_*` numeric identifier of each flag (`flag as c_int`). -/
def toInt : ConfigFlag → Int
  | EnableFKey => 1002
  | EnableTrigger => 1003
  | FTS3Tokenizer => 1004
  | EnableLoadExtension => 1005
  | NoCheckpointOnClose => 1006
  | EnableQueryPlannerStabilityGuarantee => 1007
  | TriggerExplainQueryPlan => 1008
  | ResetDatabase => 1009
  | Defensive => 1010
  | WritableSchema => 1011
  | LegacyAlterTable => 1012
  | DoubleQuotedStringDML => 1013
  | DoubleQuotedStringDDL => 1014
  | EnableView => 1015
  | LegacyFileFormat => 1016
  | TrustedSchema => 1017

end ConfigFlag

/-- The native engine's entry points used by `Connection`, modelled as pure
functions.  `open_v2` models `sqlite3_open_v2(filename, &mut db, flags, NULL)`:
given the filename and the flag word it yields the handle written through the
out-pointer (`none` models a null pointer, e.g. on allocation failure,
`some db` the observable state of a non-null handle) together with the
returned status code.  `db_config` models
`sqlite3_db_config(db, flag, value, NULL)` for a boolean write: its returned
status code as a function of the numeric flag id and the written value
(the write itself has no effect observable by this core). -/
structure Engine where
  open_v2 : String → Nat → Option DbState × ResultCode
  db_config : Int → Int → ResultCode

/-- `pub struct Connection { ptr: NonNull<sqlite3>, authorizer: *mut AuthorizerFn }`
(`src/connection.rs` lines 22-25).  The non-null handle is modelled by its
observable state; the authorizer pointer by whether it is non-null. -/
structure Connection where
  db : DbState
  authorizer_installed : Bool
deriving DecidableEq, Repr

namespace Connection

/-- `pub fn config(&mut self, flag, value) -> Result<()>` (`src/connection.rs`
lines 65-75): wraps `sqlite3_db_config(self.as_ptr(), flag as c_int,
value as c_int, null)` and maps the status through `to_result`. -/
def config (engine : Engine) (flag : ConfigFlag) (value : Bool) :
    Except Error Unit :=
  let rc := engine.db_config flag.toInt (if value then 1 else 0)
  rc.to_result.map (fun _ => ())

/-- The effective flag word handed to `sqlite3_open_v2` by `Connection::open`
(`src/connection.rs` line 40):
`(flags.bits() as c_int) | SQLITE_OPEN_NOMUTEX | SQLITE_OPEN_PRIVATECACHE`. -/
def openEffectiveFlags (flags : OpenFlags) : Nat :=
  flags.bits ||| SQLITE_OPEN_NOMUTEX ||| SQLITE_OPEN_PRIVATECACHE

/-- `pub fn open(filename, flags: OpenFlags) -> Result<Connection>`
(`src/connection.rs` lines 34-62), on the `modern` build.  The outer `Option`
models panics: `none` is a panic (the `unwrap()` on line 54 failing), `some`
a normal return.  Steps, in source order: call `sqlite3_open_v2` with the
effective flags; a null handle is special-cased to
`ResultCode::NOMEM.to_result().unwrap_err()` (`unwrap_err` on an `Ok` would
panic); otherwise a `Connection` is built so the handle will be released, a
non-`OK` status returns `conn.as_ref().error().unwrap()`, and on success the
two double-quoted-string flags are switched off, `?`-propagating failure. -/
def «open» (engine : Engine) (filename : String) (flags : OpenFlags) :
    Option (Except Error Connection) :=
  let r := engine.open_v2 filename (openEffectiveFlags flags)
  let rc := r.2
  match r.1 with
  | none =>
    match ResultCode.NOMEM.to_result with
    | Except.error e => some (Except.error e)
    | Except.ok _ => none
  | some db =>
    let conn : Connection := { db := db, authorizer_installed := false }
    if rc ≠ ResultCode.OK then
      match Error.get conn.db with
      | none => none
      | some e => some (Except.error e)
    else
      match config engine ConfigFlag.DoubleQuotedStringDML false with
      | Except.error e => some (Except.error e)
      | Except.ok _ =>
        match config engine ConfigFlag.DoubleQuotedStringDDL false with
        | Except.error e => some (Except.error e)
        | Except.ok _ => some (Except.ok conn)

end Connection

/-- The two engine calls `Drop for Connection` can make, in the order the
teardown trace records them. -/
inductive DropAction where
  | clearAuthorizer
  | closeHandle
deriving DecidableEq, Repr

namespace Connection

/-- `impl Drop for Connection` (`src/connection.rs` lines 103-115), as a
trace semantics: the list of engine calls made, in order, and whether the
final `assert_eq!` fails (aborts).  `clearRc` is the status returned by
`self.clear_authorizer()` (discarded by `let _ =`), `closeRc` the status of
`sqlite3_close`; the authorizer is cleared only when the pointer is non-null,
and the assertion compares the close status with `ResultCode::OK`. -/
def drop (conn : Connection) (clearRc closeRc : ResultCode) : List DropAction × Bool :=
  let _ := clearRc
  ((if conn.authorizer_installed then [DropAction.clearAuthorizer] else [])
      ++ [DropAction.closeHandle],
   decide (closeRc ≠ ResultCode.OK))

end Connection

namespace Conn

/-- `pub fn db_readonly(&self, schema) -> Option<bool>` (`src/connection.rs`
lines 141-149), as a function of the raw `sqlite3_db_readonly` probe result.
The outer `Option` models the panic on an out-of-contract probe value:
`none` is the panic, `some` a normal return. -/
def db_readonly (probe : Int) : Option (Option Bool) :=
  if probe = -1 then some none
  else if probe = 0 then some (some false)
  else if probe = 1 then some (some true)
  else none

end Conn

/-- A concrete engine whose open routine yields a null handle, used to
instantiate theorems about `Connection.open` at a concrete input. -/
def sampleNullEngine : Engine :=
  { open_v2 := fun _ _ => (none, ResultCode.OK)
    db_config := fun _ _ => ResultCode.OK }

/-- C1: for every status code value, `is_success()` returns true if and only
if the primary code (the value masked to its low 8 bits) is one of
`SQLITE_OK`, `SQLITE_ROW`, `SQLITE_DONE`; for every other primary code it
returns false. -/
theorem is_success_iff_primary_ok_row_done (rc : ResultCode) :
    rc.is_success = true ↔
      (rc.to_primary = ResultCode.OK ∨ rc.to_primary = ResultCode.ROW
        ∨ rc.to_primary = ResultCode.DONE) := by
  simp [ResultCode.is_success, or_assoc]

/-- C9: the primary-code projection is idempotent:
`to_primary (to_primary rc) = to_primary rc`. -/
theorem to_primary_idempotent (rc : ResultCode) :
    rc.to_primary.to_primary = rc.to_primary := by
  simp only [ResultCode.to_primary, ResultCode.mk.injEq]
  exact Int.emod_emod_of_dvd _ dvd_rfl

/-- C2: `to_result()` returns `Ok` of the unchanged code when `is_success()`
holds, and otherwise `Err` of an `Error` whose code is the input code, whose
message is empty, and whose error offset is `None`. -/
theorem to_result_spec (rc : ResultCode) :
    (rc.is_success = true → rc.to_result = Except.ok rc) ∧
    (rc.is_success = false →
      rc.to_result =
        Except.error { result_code := rc, msg := "", error_offset := none }) := by
  constructor <;> intro h <;> simp [ResultCode.to_result, h]

/-- Witness for C2 at the concrete codes `OK` and `ERROR`. -/
theorem to_result_spec_witness :
    ResultCode.OK.to_result = Except.ok ResultCode.OK ∧
    ResultCode.ERROR.to_result =
      Except.error { result_code := ResultCode.ERROR, msg := "", error_offset := none } :=
  ⟨(to_result_spec ResultCode.OK).1 (by decide),
   (to_result_spec ResultCode.ERROR).2 (by decide)⟩

/-- C3: `Error::new` panics (modelled `none`) on every success code, returns
an `Error` carrying exactly the given code on every non-success code, and
hence never produces an `Error` whose status code is a success code. -/
theorem error_new_spec (rc : ResultCode) (msg : String) :
    (rc.is_success = true → Error.new rc msg = none) ∧
    (rc.is_success = false →
      Error.new rc msg =
        some { result_code := rc, msg := msg, error_offset := none }) ∧
    (∀ e : Error, Error.new rc msg = some e → e.result_code.is_success = false) := by
  refine ⟨fun h => by simp [Error.new, h], fun h => by simp [Error.new, h],
    fun e he => ?_⟩
  by_cases h : rc.is_success
  · simp [Error.new, h] at he
  · simp only [Bool.not_eq_true] at h
    simp [Error.new, h] at he
    rw [← he]
    exact h

/-- Witness for C3 at the concrete codes `OK` (success, rejected) and
`ERROR` (failure, accepted). -/
theorem error_new_spec_witness :
    Error.new ResultCode.OK "m" = none ∧
    Error.new ResultCode.ERROR "m" =
      some { result_code := ResultCode.ERROR, msg := "m", error_offset := none } :=
  ⟨(error_new_spec ResultCode.OK "m").1 (by decide),
   (error_new_spec ResultCode.ERROR "m").2.1 (by decide)⟩

/-- C7: `message()` returns the custom message when it is non-empty and
otherwise the status code's canned text; given the engine contract that the
canned text (sqlite3_errstr) is never empty, the returned string is never
empty; and the Display rendering of an `Error` is always this same text. -/
theorem error_message_spec (errstr : Int → String) (e : Error)
    (hstr : ∀ c : Int, errstr c ≠ "") :
    (e.msg ≠ "" → e.message errstr = e.msg) ∧
    (e.msg = "" → e.message errstr = errstr e.result_code.val) ∧
    e.message errstr ≠ "" ∧
    e.display errstr = e.message errstr := by
  by_cases h : e.msg = ""
  · refine ⟨fun hne => absurd h hne,
      fun _ => by simp [Error.message, ResultCode.message, h], ?_, ?_⟩
    · simp only [Error.message, ResultCode.message, h, if_pos]
      exact hstr _
    · simp [Error.display, Error.message, ResultCode.display]
  · exact ⟨fun _ => by simp [Error.message, h], fun h0 => absurd h0 h,
      by simp [Error.message, h], by simp [Error.display, Error.message, h]⟩

/-- Witness for C7 at a concrete error with an empty custom message and a
concrete non-empty canned-text table. -/
theorem error_message_spec_witness :
    ({ result_code := ResultCode.ERROR, msg := "", error_offset := none } : Error).message
        (fun _ => "unknown error") = "unknown error" := by
  have h := error_message_spec (fun _ => "unknown error")
    { result_code := ResultCode.ERROR, msg := "", error_offset := none }
    (fun c => by show "unknown error" ≠ ""; decide)
  exact h.2.1 rfl

/-- C8: `db_readonly` returns `None` exactly when the probe yields the
sentinel `-1`, `Some(false)` for `0`, `Some(true)` for `1`, and panics
(modelled by the outer `none`) on every other probe result. -/
theorem db_readonly_spec (r : Int) :
    (Conn.db_readonly r = some none ↔ r = -1) ∧
    (Conn.db_readonly r = some (some false) ↔ r = 0) ∧
    (Conn.db_readonly r = some (some true) ↔ r = 1) ∧
    (r ≠ -1 → r ≠ 0 → r ≠ 1 → Conn.db_readonly r = none) := by
  unfold Conn.db_readonly
  split_ifs with h1 h2 h3 <;> simp_all

/-- Witness for C8 at the concrete probe results `-1` and `2`. -/
theorem db_readonly_spec_witness :
    Conn.db_readonly (-1) = some none ∧ Conn.db_readonly 2 = none :=
  ⟨(db_readonly_spec (-1)).1.mpr rfl,
   (db_readonly_spec 2).2.2.2 (by decide) (by decide) (by decide)⟩

/-- C4: the effective flag word handed to the engine's open routine is the
caller's flags bitwise-or'ed with `SQLITE_OPEN_NOMUTEX` and
`SQLITE_OPEN_PRIVATECACHE`; both bits are forced on regardless of the
caller's flags, and `Connection.open` consults the engine's open routine
only at this effective flag word. -/
theorem open_effective_flags_spec (flags : OpenFlags) :
    Connection.openEffectiveFlags flags
        = flags.bits ||| SQLITE_OPEN_NOMUTEX ||| SQLITE_OPEN_PRIVATECACHE ∧
    Connection.openEffectiveFlags flags &&& SQLITE_OPEN_NOMUTEX
        = SQLITE_OPEN_NOMUTEX ∧
    Connection.openEffectiveFlags flags &&& SQLITE_OPEN_PRIVATECACHE
        = SQLITE_OPEN_PRIVATECACHE ∧
    (∀ (e1 e2 : Engine) (filename : String),
      e1.open_v2 filename (Connection.openEffectiveFlags flags)
          = e2.open_v2 filename (Connection.openEffectiveFlags flags) →
      e1.db_config = e2.db_config →
      Connection.«open» e1 filename flags = Connection.«open» e2 filename flags) := by
  refine ⟨rfl, ?_, ?_, ?_⟩
  · rcases flags with ⟨r, w, c, u, m⟩
    cases r <;> cases w <;> cases c <;> cases u <;> cases m <;> decide
  · rcases flags with ⟨r, w, c, u, m⟩
    cases r <;> cases w <;> cases c <;> cases u <;> cases m <;> decide
  · intro e1 e2 filename h hdb
    simp only [Connection.«open», Connection.config, h, hdb]

/-- An engine that behaves like `sampleNullEngine` at the effective flag word
of the default open flags but differs elsewhere, used to instantiate the
engine-dependence part of the C4 theorem. -/
def sampleNullEngine2 : Engine :=
  { open_v2 := fun _ n =>
      if n = Connection.openEffectiveFlags OpenFlags.default then
        (none, ResultCode.OK)
      else
        (none, ResultCode.ERROR)
    db_config := fun _ _ => ResultCode.OK }

/-- Witness for C4: two engines that agree at the effective flag word give
the same open result. -/
theorem open_effective_flags_spec_witness :
    Connection.«open» sampleNullEngine "file" OpenFlags.default
      = Connection.«open» sampleNullEngine2 "file" OpenFlags.default :=
  (open_effective_flags_spec OpenFlags.default).2.2.2
    sampleNullEngine sampleNullEngine2 "file" (by decide) rfl

/-- C5: when the engine's open routine yields a null handle, `open` returns
the canned out-of-memory error (code `NOMEM`, empty message, no offset),
independently of the returned status code and of everything else the engine
could report. -/
theorem open_null_handle_nomem (engine : Engine) (filename : String)
    (flags : OpenFlags) (rc : ResultCode)
    (h : engine.open_v2 filename (Connection.openEffectiveFlags flags) = (none, rc)) :
    Connection.«open» engine filename flags =
      some (Except.error
        { result_code := ResultCode.NOMEM, msg := "", error_offset := none }) := by
  simp only [Connection.«open», h]
  rfl

/-- Witness for C5 at a concrete null-returning engine. -/
theorem open_null_handle_nomem_witness :
    Connection.«open» sampleNullEngine "file" OpenFlags.default =
      some (Except.error
        { result_code := ResultCode.NOMEM, msg := "", error_offset := none }) :=
  open_null_handle_nomem sampleNullEngine "file" OpenFlags.default ResultCode.OK rfl

/-- An engine whose open routine returns a non-null handle together with a
non-OK status, while the handle's last recorded extended status reports
success, used to instantiate the C10 theorem. -/
def sampleFailEngine : Engine :=
  { open_v2 := fun _ _ =>
      (some { extended_errcode := ResultCode.OK, errmsg := "", error_offset_raw := -1 },
       ResultCode.MISUSE)
    db_config := fun _ _ => ResultCode.OK }

/-- C10: when the engine's open routine returns a non-null handle together
with a non-OK status code, `open` unwraps the handle's extracted last-error
diagnostic: if the handle's last recorded extended status is a non-success
code, that diagnostic becomes the returned `Error`; if it reports success,
the `unwrap()` panics (modelled `none`) instead of returning an `Error`. -/
theorem open_failure_unwraps_diagnostic (engine : Engine) (filename : String)
    (flags : OpenFlags) (db : DbState) (rc : ResultCode)
    (h : engine.open_v2 filename (Connection.openEffectiveFlags flags) = (some db, rc))
    (hrc : rc ≠ ResultCode.OK) :
    (db.extended_errcode.is_success = true →
      Connection.«open» engine filename flags = none) ∧
    (db.extended_errcode.is_success = false →
      Connection.«open» engine filename flags =
        some (Except.error
          { result_code := db.extended_errcode, msg := db.errmsg,
            error_offset := Error.get_error_offset db })) := by
  constructor <;> intro hs <;>
    simp [Connection.«open», h, hrc, Error.get, hs]

/-- Witness for C10: a handle whose diagnostic reports success makes the
failing open panic. -/
theorem open_failure_unwraps_diagnostic_witness :
    Connection.«open» sampleFailEngine "file" OpenFlags.default = none :=
  (open_failure_unwraps_diagnostic sampleFailEngine "file" OpenFlags.default
      { extended_errcode := ResultCode.OK, errmsg := "", error_offset_raw := -1 }
      ResultCode.MISUSE rfl (by decide)).1 (by decide)

/-- C6: on every destruction of a `Connection`, the installed authorizer
(when present) is cleared before the native resource is released, a failure
of the clearing step is swallowed (the teardown outcome does not depend on
the clearing status), the release call happens exactly once and is the last
engine call, and a non-success release status aborts (assertion failure). -/
theorem drop_spec (conn : Connection) (clearRc clearRc2 closeRc : ResultCode) :
    Connection.drop conn clearRc closeRc = Connection.drop conn clearRc2 closeRc ∧
    (Connection.drop conn clearRc closeRc).1.count DropAction.closeHandle = 1 ∧
    (Connection.drop conn clearRc closeRc).1.getLast? = some DropAction.closeHandle ∧
    (DropAction.clearAuthorizer ∈ (Connection.drop conn clearRc closeRc).1 ↔
      conn.authorizer_installed = true) ∧
    ((Connection.drop conn clearRc closeRc).2 = true ↔ closeRc ≠ ResultCode.OK) := by
  cases h : conn.authorizer_installed <;>
    simp [Connection.drop, h, List.count_cons, List.getLast?]
